import Mathlib

/-!
# Verification of the RunSignUp integration layer (Unified5K)

Shallow embedding, in Lean 4, of the API-integration layer of the Unified5K
mobile application: the HTTP transport's envelope unwrapping and response
interceptor (`api.service.ts`), the OAuth2 authentication manager
(`auth.service.ts`), the race / user / registration / photo domain clients
(`race.service.ts`, user service, registration service, `photo.service.ts`),
and the integration facade hook (`CollapsibleSection.tsx`, `useRunSignUp`).

The services are written in TypeScript; the embedding models JavaScript
values, truthiness, property access, string interpolation, `parseInt`, and
`Date` arithmetic explicitly.  External collaborators (the HTTP stack, the
host `Date` parser, the secure token store) are passed in as explicit
parameters or state, so that every embedded operation is a pure function.
-/

/-! ## A model of JavaScript values

The transport unwraps arbitrary JSON response bodies, so we need a small
model of JavaScript runtime values: `undefined`, `null`, booleans, numbers
(integers suffice for the values this layer manipulates), strings, arrays
and objects.  Objects are association lists of fields in insertion order.
-/

inductive Json where
  | undefined : Json
  | null : Json
  | bool (b : Bool) : Json
  | num (n : Int) : Json
  | str (s : String) : Json
  | arr (elems : List Json) : Json
  | obj (fields : List (String × Json)) : Json
deriving Repr

/-- JavaScript truthiness: `undefined`, `null`, `false`, `0`, and `""` are
falsy; every other value (including empty arrays and objects) is truthy. -/
def jsTruthy : Json → Bool
  | .undefined => false
  | .null => false
  | .bool b => b
  | .num n => n != 0
  | .str s => s != ""
  | .arr _ => true
  | .obj _ => true

namespace Json

/-- JavaScript property access `v.k` for the values that occur in this layer:
for an object, the value of its first field named `k` (or `undefined`);
for every other non-nullish value, `undefined`.  (In JavaScript, property
access on `null`/`undefined` throws a `TypeError`; the embedded operations
only dereference values they have already checked to be truthy, except for
the response body itself, which the theorems require to be an object.) -/
def getF : Json → String → Json
  | .obj fields, k =>
    match fields.find? (fun f => f.1 == k) with
    | some f => f.2
    | none => .undefined
  | _, _ => .undefined

/-- Whether a value is an object. -/
def isObj : Json → Bool
  | .obj _ => true
  | _ => false

end Json

mutual
/-- JavaScript string conversion, as performed by template-literal
interpolation: `String(v)`.  Arrays convert by joining the conversions of
their elements with `","` (with `null`/`undefined` elements converting to
the empty string); plain objects convert to `"[object Object]"`. -/
def jsStr : Json → String
  | .undefined => "undefined"
  | .null => "null"
  | .bool b => if b then "true" else "false"
  | .num n => toString n
  | .str s => s
  | .arr elems => String.intercalate "," (jsStrElems elems)
  | .obj _ => "[object Object]"

/-- Conversions of array elements for `jsStr` (nullish elements become empty
strings, per `Array.prototype.join`). -/
def jsStrElems : List Json → List String
  | [] => []
  | .undefined :: es => "" :: jsStrElems es
  | .null :: es => "" :: jsStrElems es
  | v :: es => jsStr v :: jsStrElems es
end

/-! ## HTTP transport: envelope unwrapping (`api.service.ts`)

`RunSignUpApiService.get/post/put/delete` each receive an axios response
whose `data` is the parsed JSON body (axios fulfils only 2xx responses;
non-2xx and network failures take the rejection path through the response
interceptor, modelled separately below).  Each method checks the uniform
envelope: if `response.data.error` is truthy it throws
`` Error(`API Error ${error_code}: ${error_msg}`) ``; otherwise `get`,
`post` and `delete` return `response.data.data || response.data`
(the defensive unwrap), while `put` returns `response.data.data` only.
The surrounding `try`/`catch` logs and rethrows, so it does not alter the
result and is not modelled.
-/

namespace RunSignUpApiService

/-- The message of the error thrown on a truthy `error` envelope field:
`` `API Error ${error.error_code}: ${error.error_msg}` ``. -/
def apiErrorMsg (error : Json) : String :=
  "API Error " ++ jsStr (error.getF "error_code") ++ ": " ++
    jsStr (error.getF "error_msg")

/-- `RunSignUpApiService.get`, lines 224-252: envelope check then
`return (response.data.data || response.data) as T`. -/
def get (body : Json) : Except String Json :=
  if jsTruthy (body.getF "error") then
    .error (apiErrorMsg (body.getF "error"))
  else if jsTruthy (body.getF "data") then
    .ok (body.getF "data")
  else
    .ok body

/-- `RunSignUpApiService.post`, lines 257-280: identical unwrap to `get`. -/
def post (body : Json) : Except String Json :=
  if jsTruthy (body.getF "error") then
    .error (apiErrorMsg (body.getF "error"))
  else if jsTruthy (body.getF "data") then
    .ok (body.getF "data")
  else
    .ok body

/-- `RunSignUpApiService.put`, lines 285-308: envelope check then
`return response.data.data as T` — note: no `|| response.data` fallback. -/
def put (body : Json) : Except String Json :=
  if jsTruthy (body.getF "error") then
    .error (apiErrorMsg (body.getF "error"))
  else
    .ok (body.getF "data")

/-- `RunSignUpApiService.delete`, lines 313-334: identical unwrap to `get`. -/
def del (body : Json) : Except String Json :=
  if jsTruthy (body.getF "error") then
    .error (apiErrorMsg (body.getF "error"))
  else if jsTruthy (body.getF "data") then
    .ok (body.getF "data")
  else
    .ok body

end RunSignUpApiService

/-! ## HTTP transport: response interceptor (`api.service.ts` lines 122-139)

The axios response interceptor receives every rejected request.  If the
rejection carries a response body whose `error` envelope field is truthy and
whose `error_code` is the number `6` (expired authorization), it awaits
`refreshAccessToken()` and then replays the request with
`this.client.request(error.config)`.  The replay goes through the same
interceptor again: the code carries no per-request retry flag.

`refreshAccessToken` (lines 204-219) loads the stored refresh token; when
the stored value is falsy (`null` or the empty string) it throws
`Error('No refresh token available')` before entering its `try` block.
Otherwise its `try` block only logs a placeholder message (the real refresh
lives in `OAuth2Service`), so it returns without error and without
contacting the network; the `clearTokens()` call in its `catch` block is
unreachable.

We model one logical request as a list of HTTP attempt outcomes — the
outcome the server would give to the first attempt, to the first replay,
and so on — and run the interceptor over it, counting how many times
`refreshAccessToken` runs its refresh path.
-/

/-- Outcome of one HTTP attempt of a request, as seen by axios. -/
inductive HttpAttempt where
  /-- 2xx response with the given parsed body: the promise fulfils and the
  interceptor's success handler passes it through. -/
  | success (body : Json) : HttpAttempt
  /-- Non-2xx response with the given parsed body: axios rejects with an
  error whose `response.data` is the body. -/
  | failure (body : Json) : HttpAttempt
  /-- Network failure: axios rejects with an error that has no `response`. -/
  | network : HttpAttempt
deriving Repr

/-- Result of running a request through the response interceptor. -/
inductive InterceptResult where
  /-- The request fulfilled with this body; `refreshes` counts how many
  times the expired-token path ran `refreshAccessToken`'s refresh. -/
  | fulfilled (body : Json) (refreshes : Nat) : InterceptResult
  /-- The interceptor rejected with the original axios error (body of the
  failing response, or `none` for a network failure). -/
  | rejected (body : Option Json) (refreshes : Nat) : InterceptResult
  /-- `refreshAccessToken` threw (no stored refresh token); its error
  propagates out of the interceptor in place of the original one. -/
  | refreshThrew (msg : String) (refreshes : Nat) : InterceptResult
  /-- The supplied attempt list was exhausted while the interceptor was
  still replaying: the real code would still be issuing replays. -/
  | stillRetrying (refreshes : Nat) : InterceptResult
deriving Repr

/-- Whether a rejected attempt takes the expired-authorization branch:
`error.response?.data?.error` truthy and `error_code === 6`. -/
def isAuthExpiredBody (body : Json) : Bool :=
  jsTruthy (body.getF "error") &&
    (match (body.getF "error").getF "error_code" with
     | .num 6 => true
     | _ => false)

/-- The response interceptor of `RunSignUpApiService`, run over the attempt
outcomes of one request.  `hasRefreshToken` is whether the stored refresh
token is truthy (non-null and non-empty), which decides whether
`refreshAccessToken` returns or throws. -/
def runInterceptor (hasRefreshToken : Bool) (refreshes : Nat) :
    List HttpAttempt → InterceptResult
  | [] => .stillRetrying refreshes
  | .success body :: _ => .fulfilled body refreshes
  | .network :: _ => .rejected none refreshes
  | .failure body :: rest =>
    if isAuthExpiredBody body then
      if hasRefreshToken then
        -- `await this.refreshAccessToken()` succeeds (placeholder body),
        -- then `return this.client.request(error.config)` replays the
        -- request through this same interceptor.
        runInterceptor hasRefreshToken (refreshes + 1) rest
      else
        .refreshThrew "No refresh token available" refreshes
    else
      .rejected (some body) refreshes

/-! ## Authentication manager state (`api.service.ts`, `auth.service.ts`)

Credentials live in three fixed secure-store slots (access token, refresh
token, expiry timestamp) plus the in-memory `accessToken` field of the
transport singleton.  The expiry is stored as an ISO-8601 instant; we model
instants as integer epoch seconds.
-/

/-- The credential state: the transport's in-memory `accessToken` plus the
three secure-store slots (`runsignup_access_token`,
`runsignup_refresh_token`, `runsignup_token_expiry`). -/
structure TokenStore where
  accessToken : Option String
  storedAccess : Option String
  storedRefresh : Option String
  storedExpiry : Option Int
deriving Repr, DecidableEq

namespace RunSignUpApiService

/-- `setAccessToken(token, expiresIn)` (lines 167-175): sets the in-memory
token, persists it, and persists `now + expiresIn` as the expiry. -/
def setAccessToken (now : Int) (token : String) (expiresIn : Int)
    (st : TokenStore) : TokenStore :=
  { st with
    accessToken := some token
    storedAccess := some token
    storedExpiry := some (now + expiresIn) }

/-- `setRefreshToken(refreshToken)` (lines 180-182). -/
def setRefreshToken (refreshToken : String) (st : TokenStore) : TokenStore :=
  { st with storedRefresh := some refreshToken }

/-- `getRefreshToken()` (lines 187-189): reads the stored slot. -/
def getRefreshToken (st : TokenStore) : Option String :=
  st.storedRefresh

/-- `clearTokens()` (lines 194-199): clears the in-memory token and deletes
all three secure-store slots. -/
def clearTokens (_st : TokenStore) : TokenStore :=
  { accessToken := none
    storedAccess := none
    storedRefresh := none
    storedExpiry := none }

end RunSignUpApiService

/-- The shape of a parsed OAuth token response (`OAuthTokenResponse`). -/
structure OAuthTokenResponse where
  access_token : String
  token_type : String
  expires_in : Int
  refresh_token : String
  scope : String
deriving Repr, DecidableEq

namespace OAuth2Service

/-- `OAuth2Service.exchangeCodeForToken(code)` (`auth.service.ts` lines
115-149).  The provider's token exchange is unavailable, so the method
builds the token response locally — `access_token := code`,
`expires_in := 2592000` (30 days), `refresh_token := ''` — and stores it
via `setAccessToken` / `setRefreshToken`.  The body performs no network
request; the returned `netRequests` records how many it issued (zero). -/
def exchangeCodeForToken (now : Int) (code : String) (st : TokenStore) :
    OAuthTokenResponse × TokenStore × Nat :=
  let tokenResponse : OAuthTokenResponse :=
    { access_token := code
      token_type := "Bearer"
      expires_in := 2592000
      refresh_token := ""
      scope := "rsu_api_read rsu_api_write" }
  let st := RunSignUpApiService.setAccessToken now
    tokenResponse.access_token tokenResponse.expires_in st
  let st := RunSignUpApiService.setRefreshToken tokenResponse.refresh_token st
  (tokenResponse, st, 0)

/-- Outcome of the `fetch` POST to the token endpoint inside
`OAuth2Service.refreshToken`. -/
inductive FetchOutcome where
  /-- `!response.ok`: the method reads the body text and throws. -/
  | httpError (errorText : String) : FetchOutcome
  /-- `response.ok` with a parsed `OAuthTokenResponse` body. -/
  | httpOk (tokenResponse : OAuthTokenResponse) : FetchOutcome
deriving Repr

/-- `OAuth2Service.refreshToken()` (`auth.service.ts` lines 154-198).
Reads the stored refresh token; a falsy value (missing slot or empty
string) throws `'No refresh token available'`.  Otherwise it POSTs to the
token endpoint (outcome supplied as `fetch`): a non-ok response throws
`` `Token refresh failed: ${errorText}` ``; an ok response stores the new
access token and, if the response's `refresh_token` is truthy, the new
refresh token.  The `catch` block only logs and rethrows — on every failure
path the token store is returned unchanged. -/
def refreshToken (fetch : FetchOutcome) (now : Int) (st : TokenStore) :
    Except String OAuthTokenResponse × TokenStore :=
  match RunSignUpApiService.getRefreshToken st with
  | none => (.error "No refresh token available", st)
  | some tok =>
    if tok = "" then
      (.error "No refresh token available", st)
    else
      match fetch with
      | .httpError errorText =>
        (.error ("Token refresh failed: " ++ errorText), st)
      | .httpOk tokenResponse =>
        let st := RunSignUpApiService.setAccessToken now
          tokenResponse.access_token tokenResponse.expires_in st
        let st :=
          if tokenResponse.refresh_token ≠ "" then
            RunSignUpApiService.setRefreshToken tokenResponse.refresh_token st
          else st
        (.ok tokenResponse, st)

/-- `OAuth2Service.isAuthenticated()` (`auth.service.ts` lines 312-319):
`Boolean(await apiService.getRefreshToken())` — true exactly when a truthy
(non-null, non-empty) refresh token is stored. -/
def isAuthenticated (st : TokenStore) : Bool :=
  match RunSignUpApiService.getRefreshToken st with
  | none => false
  | some tok => tok ≠ ""

/-- `OAuth2Service.logout()` (`auth.service.ts` lines 226-228). -/
def logout (st : TokenStore) : TokenStore :=
  RunSignUpApiService.clearTokens st

end OAuth2Service

/-- The validity check of `ensureAuthenticated` (`api.service.ts` lines
148-154): the stored token counts as still valid at instant `t` when an
expiry is stored and `t` is before it. -/
def tokenValidAt (t : Int) (st : TokenStore) : Bool :=
  match st.storedExpiry with
  | some expiry => t < expiry
  | none => false

/-! ## JavaScript date arithmetic

`race.service.ts` compares calendar dates at local midnight
(`setHours(0, 0, 0, 0)`), so dates are modelled as integer day counts since
1970-01-01.  `new Date(year, month, day)` accepts out-of-range components
and rolls them over, and maps years `0..99` to `1900..1999`; `parseInt`
returns `NaN` (modelled as `none`) when no leading digits are found.  The
host's generic string parser `new Date(string)` is a platform primitive and
is supplied as a parameter returning the local civil date
`(fullYear, month0, dayOfMonth)` — with `month0` 0-based as in `getMonth()`
— or `none` for an Invalid Date.
-/

/-- JavaScript `s.split(sep)` for a one-character separator: splits on every
occurrence, keeping empty segments (`''.split('/') = ['']`,
`'a//b'.split('/') = ['a', '', 'b']`). -/
def jsSplitAux (sep : Char) : List Char → List Char → List String
  | [], acc => [String.mk acc]
  | c :: cs, acc =>
    if c = sep then String.mk acc :: jsSplitAux sep cs []
    else jsSplitAux sep cs (acc.concat c)

/-- JavaScript `s.split(sep)` (one-character separator). -/
def jsSplitChar (s : String) (sep : Char) : List String :=
  jsSplitAux sep s.toList []

/-- Value of a non-empty run of decimal digits, or `none` when the run is
empty. -/
def digitsValue (cs : List Char) : Option Nat :=
  let digits := cs.takeWhile Char.isDigit
  if digits.isEmpty then none
  else some (digits.foldl (fun acc c => acc * 10 + (c.toNat - 48)) 0)

/-- JavaScript `parseInt(s)` (radix 10): skip leading whitespace, accept an
optional sign, read leading decimal digits; `NaN` (here `none`) when no
digits are found. -/
def jsParseInt (s : String) : Option Int :=
  let cs := s.toList.dropWhile (fun c => c == ' ' || c == '\t' || c == '\n' || c == '\r')
  match cs with
  | '-' :: rest => (digitsValue rest).map (fun n => -(n : Int))
  | '+' :: rest => (digitsValue rest).map (fun n => (n : Int))
  | rest => (digitsValue rest).map (fun n => (n : Int))

/-- Days since 1970-01-01 of the proleptic-Gregorian civil date `(y, m, d)`
with `m ∈ 1..12` (Howard Hinnant's `days_from_civil`). -/
def daysFromCivil (y m d : Int) : Int :=
  let yAdj := if m ≤ 2 then y - 1 else y
  let era := yAdj.fdiv 400
  let yoe := yAdj - era * 400
  let mp := (m + 9).emod 12
  let doy := (153 * mp + 2).fdiv 5 + d - 1
  let doe := yoe * 365 + yoe.fdiv 4 - yoe.fdiv 100 + doy
  era * 146097 + doe - 719468

/-- Day count of `new Date(y, month0, day)` at local midnight: years `0..99`
read as `1900..1999`, out-of-range months and days rolled over. -/
def jsMakeDateDays (y month0 day : Int) : Int :=
  let y := if 0 ≤ y ∧ y ≤ 99 then y + 1900 else y
  let yy := y + month0.fdiv 12
  let mm := month0.emod 12
  daysFromCivil yy (mm + 1) 1 + (day - 1)

/-- The type of the host's generic date parser (`new Date(string)`): the
local civil date `(fullYear, month0, dayOfMonth)` of the parsed instant, or
`none` for an Invalid Date. -/
abbrev JsDateParser := String → Option (Int × Int × Int)

/-- Day count of a civil date produced by the generic parser (the value the
parsed `Date` has after `setHours(0, 0, 0, 0)`). -/
def civilDays (c : Int × Int × Int) : Int :=
  daysFromCivil c.1 (c.2.1 + 1) c.2.2

/-! ## Race client (`race.service.ts`, first document, lines 350-439) -/

/-- The fields of `Race` that `getRaceStatus` / `formatRaceDate` read. -/
structure Race where
  race_id : Int
  name : String
  next_date : String
  last_date : String
deriving Repr, DecidableEq

/-- Race schedule status. -/
inductive RaceStatus where
  | live
  | upcoming
  | past
deriving Repr, DecidableEq

namespace RaceService

/-- The local `parseDate` helper of `getRaceStatus` (lines 363-371):
`dateStr.split('/')`; on exactly three parts,
`new Date(parseInt(parts[2]), parseInt(parts[0]) - 1, parseInt(parts[1]))`
(Invalid — `none` — as soon as any `parseInt` is `NaN`); otherwise the
generic `new Date(dateStr)`.  The result is the day count after
`setHours(0, 0, 0, 0)`. -/
def parseDate (jsDateParse : JsDateParser) (dateStr : String) : Option Int :=
  match jsSplitChar dateStr '/' with
  | [p0, p1, p2] =>
    match jsParseInt p2, jsParseInt p0, jsParseInt p1 with
    | some y, some m, some d => some (jsMakeDateDays y (m - 1) d)
    | _, _, _ => none
  | _ => (jsDateParse dateStr).map civilDays

/-- JavaScript `<=` between `Date` values: comparisons involving an Invalid
Date (`NaN` timestamp) are always false. -/
def dateLE : Option Int → Option Int → Bool
  | some a, some b => a ≤ b
  | _, _ => false

/-- JavaScript `<` between `Date` values: false when either side is an
Invalid Date. -/
def dateLT : Option Int → Option Int → Bool
  | some a, some b => a < b
  | _, _ => false

/-- `RaceService.getRaceStatus(race)` (lines 353-394).  Missing (empty,
hence falsy) `next_date` or `last_date` defaults to `upcoming`; otherwise
both dates are parsed by `parseDate`, and the status is `live` when
`nextDate <= today <= lastDate`, `upcoming` when `today < nextDate`, else
`past`.  `today` is the current local date's day count (after
`setHours(0, 0, 0, 0)`).  The `try`/`catch` returning `upcoming` guards a
body none of whose operations can throw, so it is not modelled. -/
def getRaceStatus (jsDateParse : JsDateParser) (today : Int) (race : Race) :
    RaceStatus :=
  if race.next_date = "" || race.last_date = "" then
    .upcoming
  else
    let nextDate := parseDate jsDateParse race.next_date
    let lastDate := parseDate jsDateParse race.last_date
    if dateLE nextDate (some today) && dateLE (some today) lastDate then
      .live
    else if dateLT (some today) nextDate then
      .upcoming
    else
      .past

/-- JavaScript `s.padStart(2, '0')`. -/
def padStart2 (s : String) : String :=
  if s.length ≥ 2 then s
  else String.mk (List.replicate (2 - s.length) '0') ++ s

/-- `RaceService.formatRaceDate(race)` (lines 399-426).  Falsy (empty)
`next_date` yields `'TBA'`; when `next_date.split('/')` has exactly three
parts the first two are zero-padded and joined (no validity check);
otherwise the generic parse is attempted and a valid date is rendered as
`MM/DD` from `getMonth() + 1` and `getDate()`, an invalid one as `'TBA'`. -/
def formatRaceDate (jsDateParse : JsDateParser) (race : Race) : String :=
  if race.next_date = "" then "TBA"
  else
    match jsSplitChar race.next_date '/' with
    | [p0, p1, _p2] => padStart2 p0 ++ "/" ++ padStart2 p1
    | _ =>
      match jsDateParse race.next_date with
      | some c => padStart2 (toString (c.2.1 + 1)) ++ "/" ++ padStart2 (toString c.2.2)
      | none => "TBA"

end RaceService

/-! ## User client (user service, lines 118-170)

`getUpcomingRegistrations` / `getPastRegistrations` fetch one page of
registrations and sort a copy in place with
`sort((a, b) => dateA - dateB)` (resp. `dateB - dateA`) where
`dateX = x.race_date ? new Date(x.race_date).getTime() : 0`.
`Array.prototype.sort` with a consistent comparator produces the stable
sorted permutation of its input, which is `List.mergeSort`.  The host's
`new Date(s).getTime()` (epoch milliseconds) is supplied as a parameter.
-/

/-- The fields of `UserRegistration` these operations read. -/
structure UserRegistration where
  registration_id : Int
  race_id : Int
  event_id : Int
  race_name : String
  race_date : Option String
deriving Repr, DecidableEq

namespace UserService

/-- The sort key: `r.race_date ? new Date(r.race_date).getTime() : 0` —
a missing `race_date` is treated as epoch zero.  (A present but empty
string is also falsy; `jsTime` models the host parse of present values.) -/
def raceDateKey (jsTime : String → Int) (r : UserRegistration) : Int :=
  match r.race_date with
  | some s => if s = "" then 0 else jsTime s
  | none => 0

/-- `UserService.getUpcomingRegistrations` (lines 121-143): the fetched
`response.registrations || []`, sorted ascending by `raceDateKey`. -/
def getUpcomingRegistrations (jsTime : String → Int)
    (registrationsResp : Option (List UserRegistration)) :
    List UserRegistration :=
  let registrations := registrationsResp.getD []
  registrations.mergeSort fun a b =>
    decide (raceDateKey jsTime a ≤ raceDateKey jsTime b)

/-- `UserService.getPastRegistrations` (lines 148-170): the fetched
`response.registrations || []`, sorted descending by `raceDateKey`. -/
def getPastRegistrations (jsTime : String → Int)
    (registrationsResp : Option (List UserRegistration)) :
    List UserRegistration :=
  let registrations := registrationsResp.getD []
  registrations.mergeSort fun a b =>
    decide (raceDateKey jsTime b ≤ raceDateKey jsTime a)

end UserService

/-! ## Registration client (registration service, lines 85-217) -/

/-- Truthiness of an optional string property (`undefined` and `''` falsy). -/
def truthyOptStr : Option String → Bool
  | some s => s ≠ ""
  | none => false

/-- Truthiness of an optional number property (`undefined` and `0` falsy). -/
def truthyOptInt : Option Int → Bool
  | some n => n ≠ 0
  | none => false

/-- JavaScript property assignment `fields[k] = v` on an object modelled as
an ordered field list: an existing key keeps its position and gets the new
value, a new key is appended. -/
def jsAssign (fields : List (String × Json)) (k : String) (v : Json) :
    List (String × Json) :=
  if fields.any (fun f => f.1 = k) then
    fields.map (fun f => if f.1 = k then (k, v) else f)
  else
    fields ++ [(k, v)]

/-- Conditionally assign an optional string property: `if (x) out.k = x`. -/
def assignIfStr (fields : List (String × Json)) (k : String)
    (v : Option String) : List (String × Json) :=
  match v with
  | some s => if s ≠ "" then jsAssign fields k (.str s) else fields
  | none => fields

/-- Conditionally assign an optional number property: `if (x) out.k = x`. -/
def assignIfInt (fields : List (String × Json)) (k : String)
    (v : Option Int) : List (String × Json) :=
  match v with
  | some n => if n ≠ 0 then jsAssign fields k (.num n) else fields
  | none => fields

/-- The optional `address` sub-object of a `RegistrationRequest`. -/
structure RegAddress where
  street : Option String
  city : Option String
  state : Option String
  zipcode : Option String
  country_code : Option String
deriving Repr

/-- `RegistrationRequest` (registration service, lines 9-47). -/
structure RegistrationRequest where
  first_name : String
  last_name : String
  email : String
  dob : String
  gender : String
  address : Option RegAddress
  phone : Option String
  event_id : Int
  emergency_contact_name : Option String
  emergency_contact_phone : Option String
  tshirt_size : Option String
  bib_number : Option String
  team_id : Option Int
  team_name : Option String
  custom_questions : Option (List (String × Json))
  coupon_code : Option String
  donation_amount : Option Int
  offline_payment : Option Bool
deriving Repr

namespace RegistrationService

/-- `RegistrationService.formatRegistrationData(data)` (lines 170-217):
the base object literal with the identity fields (copied verbatim, with no
emptiness check), followed by the conditional assignments of the optional
fields, each guarded by JavaScript truthiness, and finally the entries of
`custom_questions` assigned one by one. -/
def formatRegistrationData (data : RegistrationRequest) :
    List (String × Json) :=
  let formatted : List (String × Json) :=
    [("first_name", .str data.first_name),
     ("last_name", .str data.last_name),
     ("email", .str data.email),
     ("dob", .str data.dob),
     ("gender", .str data.gender),
     ("event_id", .num data.event_id)]
  let formatted :=
    match data.address with
    | none => formatted
    | some a =>
      let formatted := assignIfStr formatted "address_street" a.street
      let formatted := assignIfStr formatted "address_city" a.city
      let formatted := assignIfStr formatted "address_state" a.state
      let formatted := assignIfStr formatted "address_zipcode" a.zipcode
      assignIfStr formatted "address_country" a.country_code
  let formatted := assignIfStr formatted "phone" data.phone
  let formatted :=
    assignIfStr formatted "emergency_contact_name" data.emergency_contact_name
  let formatted :=
    assignIfStr formatted "emergency_contact_phone" data.emergency_contact_phone
  let formatted := assignIfStr formatted "tshirt_size" data.tshirt_size
  let formatted := assignIfStr formatted "bib_num" data.bib_number
  let formatted := assignIfInt formatted "team_id" data.team_id
  let formatted := assignIfStr formatted "team_name" data.team_name
  let formatted := assignIfStr formatted "coupon_code" data.coupon_code
  let formatted := assignIfInt formatted "donation_amount" data.donation_amount
  let formatted :=
    match data.offline_payment with
    | some true => jsAssign formatted "offline_payment" (.str "T")
    | _ => formatted
  match data.custom_questions with
  | some entries =>
    entries.foldl (fun acc e => jsAssign acc e.1 e.2) formatted
  | none => formatted

/-- One Transport `post` issued by the registration client. -/
structure PostCall where
  endpoint : String
  payload : List (String × Json)
deriving Repr

/-- `RegistrationService.registerForRace(raceId, registrationData)` (lines
150-165): formats the data and posts it to
`/race/${raceId}/registration/add`; the `catch` logs and rethrows, so the
transport's outcome (supplied as `post`) passes through unchanged.  The
second component lists every Transport call the operation issues. -/
def registerForRace
    (post : String → List (String × Json) → Except String Json)
    (raceId : Int) (registrationData : RegistrationRequest) :
    Except String Json × List PostCall :=
  let payload := formatRegistrationData registrationData
  let endpoint := "/race/" ++ toString raceId ++ "/registration/add"
  (post endpoint payload, [⟨endpoint, payload⟩])

end RegistrationService

/-! ## Photo client (`photo.service.ts`, lines 136-193) -/

/-- One image variant of a race photo. -/
structure PhotoImage where
  image_url : String
  height : Int
  width : Int
deriving Repr, DecidableEq

/-- The fields of `RacePhoto` these operations touch. -/
structure RacePhoto where
  photo_id : Int
  album_id : Int
  bibs : List Int
  uploaded_ts : Int
deriving Repr, DecidableEq

/-- The `{photos, total_count}` response of the photos endpoint (`photos`
may be absent in a degenerate payload, hence optional). -/
structure PhotosResponse where
  photos : Option (List RacePhoto)
  total_count : Int
deriving Repr

/-- A participant record as read by `searchPhotosByParticipant`. -/
structure ParticipantRecord where
  bib_num : Option String
deriving Repr

/-- The participants-endpoint response (`participants` may be absent —
the code reads it with `?.`). -/
structure ParticipantsResponse where
  participants : Option (List ParticipantRecord)
deriving Repr

namespace PhotoService

/-- `PhotoService.getPhotosByBib(raceId, bibNumber, page)` (lines 139-160):
on a fulfilled transport call, `response.photos || []`; on any thrown
error — envelope `ApiError`s and transport failures alike — the `catch`
logs and returns `[]`.  The transport outcome is supplied as `transport`;
the operation's return type has no failure channel. -/
def getPhotosByBib (transport : Except String PhotosResponse) :
    List RacePhoto :=
  match transport with
  | .ok response => response.photos.getD []
  | .error _ => []

/-- `PhotoService.searchPhotosByParticipant(raceId, firstName, lastName)`
(lines 165-193): fetches one participant; when `participants?.length > 0`
and the first participant's `bib_num` is truthy, delegates to
`getPhotosByBib` (with `parseInt(bib_num)`, which does not affect the
supplied photos-transport outcome); otherwise returns `[]`.  The `catch`
also returns `[]`, so a failed participants call — genuine or not — becomes
an empty success. -/
def searchPhotosByParticipant
    (participantsTransport : Except String ParticipantsResponse)
    (photosTransport : Except String PhotosResponse) : List RacePhoto :=
  match participantsTransport with
  | .error _ => []
  | .ok response =>
    match response.participants with
    | some (participant :: _) =>
      if truthyOptStr participant.bib_num then
        getPhotosByBib photosTransport
      else []
    | _ => []

end PhotoService

/-! ## Integration facade (`CollapsibleSection.tsx`, `useRunSignUp`) -/

/-- The slice of `RunSignUpState` that `fetchRegistrations` can touch. -/
structure FacadeState where
  isLinked : Bool
  isLoading : Bool
  error : Option String
  adminInfo : Option String
  runSignUpUserId : Option Int
  upcomingRegistrations : List UserRegistration
  pastRegistrations : List UserRegistration
deriving Repr, DecidableEq

/-- A Domain Client call issued by the facade. -/
inductive ServiceCall where
  | upcomingRegistrations (userId : Int) : ServiceCall
  | pastRegistrations (userId : Int) : ServiceCall
deriving Repr, DecidableEq

/-- JavaScript `a || b` on optional numeric ids (`0` is falsy). -/
def jsOrId : Option Int → Option Int → Option Int
  | some u, b => if u = 0 then b else some u
  | none, b => b

/-- JavaScript `String.prototype.includes`. -/
def jsIncludes (s pattern : String) : Bool :=
  decide (pattern.toList <:+: s.toList)

namespace useRunSignUp

/-- The error branch of `fetchRegistrations` (lines 344-363): an API-key
failure (`'Key authentication failed'` or `'API Error 6'` in the message)
sets `adminInfo`; anything else sets `error`. -/
def fetchRegistrationsOnError (msg : String) (st : FacadeState) : FacadeState :=
  if jsIncludes msg "Key authentication failed" || jsIncludes msg "API Error 6" then
    { st with
      isLoading := false
      adminInfo := some "Full API access requires RunSignUp partner status." }
  else
    { st with isLoading := false, error := some "Failed to fetch registrations" }

/-- `useRunSignUp.fetchRegistrations(userId?)` (lines 321-364).
`targetUserId = userId || state.runSignUpUserId`; the guard
`if (!targetUserId || targetUserId <= 1) return;` makes the call a no-op
for a missing or placeholder id — before any state update and before any
Domain Client call.  Otherwise `isLoading` is set and the upcoming and past
registrations are fetched concurrently (`svc` supplies both outcomes;
`Promise.all` rejects with the first failure).  Returns the new state and
the list of Domain Client calls issued. -/
def fetchRegistrations
    (svc : Int →
      Except String (List UserRegistration) ×
        Except String (List UserRegistration))
    (userIdArg : Option Int) (st : FacadeState) :
    FacadeState × List ServiceCall :=
  let targetUserId := jsOrId userIdArg st.runSignUpUserId
  match targetUserId with
  | none => (st, [])
  | some u =>
    if u = 0 ∨ u ≤ 1 then (st, [])
    else
      let st := { st with isLoading := true }
      let calls := [ServiceCall.upcomingRegistrations u,
                    ServiceCall.pastRegistrations u]
      match svc u with
      | (.ok upcoming, .ok past) =>
        ({ st with
            upcomingRegistrations := upcoming
            pastRegistrations := past
            isLoading := false }, calls)
      | (.error msg, _) => (fetchRegistrationsOnError msg st, calls)
      | (_, .error msg) => (fetchRegistrationsOnError msg st, calls)

end useRunSignUp

/-! ## Concrete inputs used by counterexamples and witnesses -/

/-- A non-2xx response body carrying the expired-authorization envelope
(`error_code` 6). -/
def authExpiredBody : Json :=
  .obj [("error", .obj [("error_code", .num 6),
                        ("error_msg", .str "Token expired")])]

/-- A 2xx response body with a `data` envelope field. -/
def okBody : Json :=
  .obj [("data", .obj [("race_id", .num 7)])]

/-- A 2xx response body carrying neither `error` nor `data` (the race list
endpoint, for instance, answers `{races: [...]}` at top level). -/
def bareBody : Json :=
  .obj [("races", .arr [])]

/-- A credential state holding a full set of (stale) credentials. -/
def staleStore : TokenStore :=
  { accessToken := some "stale-access"
    storedAccess := some "stale-access"
    storedRefresh := some "stale-refresh"
    storedExpiry := some 1000 }

/-- A registration request whose `email` is empty (and whose optional
fields are absent). -/
def emptyEmailRequest : RegistrationRequest :=
  { first_name := "Ada"
    last_name := "Lovelace"
    email := ""
    dob := "1990-01-01"
    gender := "F"
    address := none
    phone := none
    event_id := 42
    emergency_contact_name := none
    emergency_contact_phone := none
    tshirt_size := none
    bib_number := none
    team_id := none
    team_name := none
    custom_questions := none
    coupon_code := none
    donation_amount := none
    offline_payment := none }

/-- A race whose date strings are unparsable but split into three
`/`-separated parts. -/
def garbledDateRace : Race :=
  { race_id := 3, name := "Mystery Run", next_date := "a/b/c", last_date := "a/b/c" }

/-- A race with well-formed `MM/DD/YYYY` dates (2025-06-15 .. 2025-06-16). -/
def juneRace : Race :=
  { race_id := 9, name := "June 5K", next_date := "06/15/2025", last_date := "06/16/2025" }

/-- A facade state whose linked identity is the placeholder (`user_id = 1`). -/
def placeholderState : FacadeState :=
  { isLinked := true
    isLoading := false
    error := none
    adminInfo := none
    runSignUpUserId := some 1
    upcomingRegistrations := []
    pastRegistrations := [] }

/-- A registration with a race date and one without. -/
def datedRegistration : UserRegistration :=
  { registration_id := 11, race_id := 7, event_id := 70
    race_name := "Spring 5K", race_date := some "06/15/2025" }

/-- A registration whose `race_date` is missing. -/
def undatedRegistration : UserRegistration :=
  { registration_id := 12, race_id := 8, event_id := 80
    race_name := "Fall 5K", race_date := none }

/-! ## Claim C10 — code-as-token exchange leaves `isAuthenticated` false -/

/-- Claim C10: for every authorization code `c`, `exchangeCodeForToken(c)` makes
no network request; it stores `c` itself as the access token with a fixed
30-day (2 592 000 s) expiry and stores an empty-string refresh token, so a
subsequent `isAuthenticated()` — which reports whether a stored refresh
token is truthy — returns `false` although the stored access token is
still valid. -/
theorem exchangeCodeForToken_offline_unauthenticated
    (now : Int) (code : String) (st : TokenStore) :
    (OAuth2Service.exchangeCodeForToken now code st).2.2 = 0 ∧
    (OAuth2Service.exchangeCodeForToken now code st).1.access_token = code ∧
    (OAuth2Service.exchangeCodeForToken now code st).1.expires_in = 2592000 ∧
    (OAuth2Service.exchangeCodeForToken now code st).1.refresh_token = "" ∧
    (OAuth2Service.exchangeCodeForToken now code st).2.1.storedAccess = some code ∧
    (OAuth2Service.exchangeCodeForToken now code st).2.1.storedExpiry = some (now + 2592000) ∧
    (OAuth2Service.exchangeCodeForToken now code st).2.1.storedRefresh = some "" ∧
    tokenValidAt now (OAuth2Service.exchangeCodeForToken now code st).2.1 = true ∧
    OAuth2Service.isAuthenticated (OAuth2Service.exchangeCodeForToken now code st).2.1 = false := by
  refine ⟨rfl, rfl, rfl, rfl, rfl, rfl, rfl, ?_, rfl⟩
  simp [tokenValidAt, OAuth2Service.exchangeCodeForToken,
    RunSignUpApiService.setAccessToken, RunSignUpApiService.setRefreshToken]

/-! ## Claim C9 — the facade's placeholder guard -/

/-- Claim C9: whenever the linked identity is a placeholder (`runSignUpUserId`
absent or `≤ 1`), `fetchRegistrations()` is a no-op: the state is returned
unchanged (no error recorded, registrations untouched) and no Domain
Client call is issued. -/
theorem fetchRegistrations_placeholder_noop
    (svc : Int → Except String (List UserRegistration) ×
      Except String (List UserRegistration))
    (st : FacadeState)
    (h : ∀ u, st.runSignUpUserId = some u → u ≤ 1) :
    useRunSignUp.fetchRegistrations svc none st = (st, []) := by
  cases hid : st.runSignUpUserId with
  | none => simp [useRunSignUp.fetchRegistrations, jsOrId, hid]
  | some u =>
    have hu : u ≤ 1 := h u hid
    simp [useRunSignUp.fetchRegistrations, jsOrId, hid, hu]

/-- Witness for C9: the guard fires on the concrete placeholder state
(`runSignUpUserId = 1`). -/
theorem fetchRegistrations_placeholder_noop_witness :
    useRunSignUp.fetchRegistrations (fun _ => (.ok [], .ok [])) none
      placeholderState = (placeholderState, []) :=
  fetchRegistrations_placeholder_noop (fun _ => (.ok [], .ok []))
    placeholderState (fun u hu => by
      have : (1 : Int) = u := by
        simpa [placeholderState] using hu
      omega)

/-! ## Claim C4 — photo reads swallow every failure -/

/-- Claim C4 counterexample: both cited photo reads turn a genuine transport or
auth failure into an empty-collection success — `getPhotosByBib` returns
`[]` for a network failure, and `searchPhotosByParticipant` returns `[]`
for an auth failure, contradicting "genuine transport/auth failures
propagate unchanged and are never converted into an empty-collection
success". -/
theorem photoReads_swallow_genuine_failures_cex :
    PhotoService.getPhotosByBib (.error "TransportError: Network Error") = [] ∧
    PhotoService.searchPhotosByParticipant
      (.error "API Error 100: Key authentication failed")
      (.ok { photos := some [], total_count := 0 }) = [] :=
  ⟨rfl, rfl⟩

/-- Claim C4 amended: in the photo client, `getPhotosByBib` and
`searchPhotosByParticipant` normalise **every** failure — genuine
transport/auth failures included — to the empty list (their `catch` blocks
return `[]`), while a fulfilled call is normalised from
`response.photos || []`. -/
theorem photoReads_normalise_all_failures
    (e : String) (photosTransport : Except String PhotosResponse)
    (resp : PhotosResponse) :
    PhotoService.getPhotosByBib (.error e) = [] ∧
    PhotoService.getPhotosByBib (.ok resp) = resp.photos.getD [] ∧
    PhotoService.searchPhotosByParticipant (.error e) photosTransport = [] :=
  ⟨rfl, rfl, rfl⟩

/-! ## Claim C2 — the interceptor's refresh-then-replay is unbounded -/

/-- Claim C2 counterexample: with a stored refresh token, a request whose first
two attempts fail with the expired-authorization envelope (`error_code` 6)
is replayed after **each** failure — two refreshes are triggered and the
third attempt's success is returned, where the claim requires the second
code-6 failure to propagate as a terminal error after exactly one
refresh. -/
theorem interceptor_retries_twice_cex :
    runInterceptor true 0
      [.failure authExpiredBody, .failure authExpiredBody, .success okBody] =
      .fulfilled okBody 2 := rfl

/-- Claim C2 amended: the response interceptor has no once-only guard — while a
refresh token is stored, it triggers one refresh-then-replay for **every**
expired-authorization (code 6) failure, so `k` consecutive code-6 failures
cause `k` refreshes and the request is still replayed afterwards; only a
missing/empty stored refresh token stops the cycle (the refresh itself
throws `'No refresh token available'`, which propagates). -/
theorem interceptor_unbounded_refresh
    (body : Json) (h6 : isAuthExpiredBody body = true) :
    (∀ (k n : Nat) (rest : List HttpAttempt),
      runInterceptor true n (List.replicate k (.failure body) ++ rest) =
        runInterceptor true (n + k) rest) ∧
    (∀ n rest, runInterceptor false n (.failure body :: rest) =
      .refreshThrew "No refresh token available" n) := by
  constructor
  · intro k
    induction k with
    | zero => intro n rest; rfl
    | succ k ih =>
      intro n rest
      have step : runInterceptor true n
          (List.replicate (k + 1) (.failure body) ++ rest) =
          runInterceptor true (n + 1) (List.replicate k (.failure body) ++ rest) := by
        simp [List.replicate_succ, runInterceptor, h6]
      rw [step, ih]
      congr 1
      omega
  · intro n rest
    simp [runInterceptor, h6]

/-- Witness for C2 (amended): two consecutive code-6 failures on the
concrete expired-authorization body produce two refreshes before the
replay succeeds. -/
theorem interceptor_unbounded_refresh_witness :
    isAuthExpiredBody authExpiredBody = true ∧
    runInterceptor true 0
      (List.replicate 2 (.failure authExpiredBody) ++ [.success okBody]) =
      runInterceptor true 2 [.success okBody] :=
  ⟨rfl, (interceptor_unbounded_refresh authExpiredBody rfl).1 2 0 [.success okBody]⟩

/-! ## Claim C5 — refresh failure does not purge credentials -/

/-- Claim C5 counterexample: when the provider rejects the stored (stale) refresh
token, `refreshToken` throws `'Token refresh failed: …'` but purges
nothing — the token store is returned unchanged, the stale refresh token is
still stored, and `isAuthenticated` still reports `true`, contradicting
"all stored credentials are purged … and the manager ends
Unauthenticated". -/
theorem refreshToken_no_purge_cex :
    (OAuth2Service.refreshToken (.httpError "invalid_grant") 0 staleStore).1 =
      .error "Token refresh failed: invalid_grant" ∧
    (OAuth2Service.refreshToken (.httpError "invalid_grant") 0 staleStore).2 =
      staleStore ∧
    (OAuth2Service.refreshToken (.httpError "invalid_grant") 0 staleStore).2.storedRefresh =
      some "stale-refresh" ∧
    OAuth2Service.isAuthenticated
      (OAuth2Service.refreshToken (.httpError "invalid_grant") 0 staleStore).2 = true :=
  ⟨rfl, rfl, rfl, rfl⟩

/-- Claim C5 amended: every failure path of `refreshToken` — a falsy (missing or
empty) stored refresh token, or a provider rejection — propagates its error
with the token store **unchanged**: no credential is purged, so the stale
refresh token remains stored and `isAuthenticated` is unaffected (the
`catch` block only logs and rethrows; `clearTokens` is never called). -/
theorem refreshToken_failure_preserves_credentials
    (fetch : OAuth2Service.FetchOutcome) (now : Int) (st : TokenStore) :
    ((RunSignUpApiService.getRefreshToken st = none ∨
        RunSignUpApiService.getRefreshToken st = some "") →
      OAuth2Service.refreshToken fetch now st =
        (.error "No refresh token available", st)) ∧
    (∀ errorText,
      (OAuth2Service.refreshToken (.httpError errorText) now st).2 = st) ∧
    (∀ errorText,
      OAuth2Service.isAuthenticated
          (OAuth2Service.refreshToken (.httpError errorText) now st).2 =
        OAuth2Service.isAuthenticated st) := by
  refine ⟨?_, ?_, ?_⟩
  · rintro (h | h) <;> simp [OAuth2Service.refreshToken, h]
  · intro errorText
    unfold OAuth2Service.refreshToken
    cases h : RunSignUpApiService.getRefreshToken st with
    | none => rfl
    | some tok =>
      by_cases htok : tok = "" <;> simp [htok]
  · intro errorText
    unfold OAuth2Service.refreshToken
    cases h : RunSignUpApiService.getRefreshToken st with
    | none => rfl
    | some tok =>
      by_cases htok : tok = "" <;> simp [htok]

/-- Witness for C5 (amended): the failure branches evaluated on concrete
stores — an empty stored refresh token yields the local error with the
store unchanged, and a provider rejection leaves `staleStore` intact. -/
theorem refreshToken_failure_preserves_credentials_witness :
    OAuth2Service.refreshToken (.httpError "bad") 5
        { accessToken := none, storedAccess := none,
          storedRefresh := some "", storedExpiry := none } =
      (.error "No refresh token available",
        { accessToken := none, storedAccess := none,
          storedRefresh := some "", storedExpiry := none }) ∧
    (OAuth2Service.refreshToken (.httpError "bad") 5 staleStore).2 = staleStore :=
  ⟨(refreshToken_failure_preserves_credentials (.httpError "bad") 5
      { accessToken := none, storedAccess := none,
        storedRefresh := some "", storedExpiry := none }).1 (Or.inr rfl),
   (refreshToken_failure_preserves_credentials (.httpError "bad") 5
      staleStore).2.1 "bad"⟩

/-! ## Claim C8 — `put` lacks the defensive unwrap -/

/-- Claim C8 counterexample: on an envelope with neither `error` nor `data`
(`{races: []}`), `get` returns the whole payload, but `put` returns the
absent `data` field (`undefined`) instead of the payload — contradicting
"each of get, post, put, delete … returns the whole response payload
itself". -/
theorem put_no_defensive_unwrap_cex :
    RunSignUpApiService.put bareBody = .ok Json.undefined ∧
    RunSignUpApiService.get bareBody = .ok bareBody ∧
    Json.undefined ≠ bareBody :=
  ⟨rfl, rfl, fun h => Json.noConfusion h⟩

/-- Claim C8 amended: for every (2xx) response body that is an object: a truthy
`error` envelope field makes all four operations fail with the
`` `API Error ${error_code}: ${error_msg}` `` message; otherwise a truthy
`data` field is returned by all four; otherwise `get`, `post` and `delete`
fall back to the whole payload (defensive unwrap) while `put` returns the
`data` field itself — `undefined` when absent. -/
theorem envelope_unwrap_per_operation
    (body : Json) (_hobj : body.isObj = true) :
    (jsTruthy (body.getF "error") = true →
      RunSignUpApiService.get body =
        .error (RunSignUpApiService.apiErrorMsg (body.getF "error")) ∧
      RunSignUpApiService.post body =
        .error (RunSignUpApiService.apiErrorMsg (body.getF "error")) ∧
      RunSignUpApiService.put body =
        .error (RunSignUpApiService.apiErrorMsg (body.getF "error")) ∧
      RunSignUpApiService.del body =
        .error (RunSignUpApiService.apiErrorMsg (body.getF "error"))) ∧
    (jsTruthy (body.getF "error") = false →
      jsTruthy (body.getF "data") = true →
      RunSignUpApiService.get body = .ok (body.getF "data") ∧
      RunSignUpApiService.post body = .ok (body.getF "data") ∧
      RunSignUpApiService.put body = .ok (body.getF "data") ∧
      RunSignUpApiService.del body = .ok (body.getF "data")) ∧
    (jsTruthy (body.getF "error") = false →
      jsTruthy (body.getF "data") = false →
      RunSignUpApiService.get body = .ok body ∧
      RunSignUpApiService.post body = .ok body ∧
      RunSignUpApiService.del body = .ok body ∧
      RunSignUpApiService.put body = .ok (body.getF "data")) := by
  refine ⟨?_, ?_, ?_⟩
  · intro he
    simp [RunSignUpApiService.get, RunSignUpApiService.post,
      RunSignUpApiService.put, RunSignUpApiService.del, he]
  · intro he hd
    simp [RunSignUpApiService.get, RunSignUpApiService.post,
      RunSignUpApiService.put, RunSignUpApiService.del, he, hd]
  · intro he hd
    simp [RunSignUpApiService.get, RunSignUpApiService.post,
      RunSignUpApiService.put, RunSignUpApiService.del, he, hd]

/-- Witness for C8 (amended): the three branches evaluated on concrete
envelopes — an error envelope, a `data` envelope, and a bare payload. -/
theorem envelope_unwrap_per_operation_witness :
    RunSignUpApiService.get authExpiredBody =
      .error "API Error 6: Token expired" ∧
    RunSignUpApiService.put okBody = .ok (Json.obj [("race_id", .num 7)]) ∧
    RunSignUpApiService.get bareBody = .ok bareBody ∧
    RunSignUpApiService.put bareBody = .ok Json.undefined := by
  refine ⟨?_, ?_, ?_, ?_⟩
  · have h := ((envelope_unwrap_per_operation authExpiredBody rfl).1 rfl).1
    simpa [authExpiredBody, RunSignUpApiService.apiErrorMsg, Json.getF,
      jsStr] using h
  · exact ((envelope_unwrap_per_operation okBody rfl).2.1 rfl rfl).2.2.1
  · exact ((envelope_unwrap_per_operation bareBody rfl).2.2 rfl rfl).1
  · exact ((envelope_unwrap_per_operation bareBody rfl).2.2 rfl rfl).2.2.2

/-! ## Claim C3 — unparsable dates: `past`, not `upcoming` -/

/-- Claim C3 counterexample: for a race whose date strings are unparsable (three
`/`-parts with non-numeric components; generic parsing also fails),
`getRaceStatus` returns `past` — not `upcoming` — because every comparison
against an Invalid Date is false and the code falls through to the final
branch; and `formatRaceDate` returns the zero-padded split parts
(`"0a/0b"`), not the `'TBA'` placeholder. -/
theorem unparsableDate_cex :
    RaceService.getRaceStatus (fun _ => none) 20254 garbledDateRace =
      .past ∧
    RaceService.getRaceStatus (fun _ => none) 20254 garbledDateRace ≠
      .upcoming ∧
    RaceService.formatRaceDate (fun _ => none) garbledDateRace = "0a/0b" ∧
    "0a/0b" ≠ "TBA" := by
  refine ⟨rfl, by decide, rfl, by decide⟩

/-- Claim C3 amended: `getRaceStatus` returns `upcoming` when `next_date` or
`last_date` is missing (empty); when both are non-empty and `next_date`
fails to parse it returns `past` (Invalid-Date comparisons are all false);
it always returns one of the three statuses (total — nothing throws).
`formatRaceDate` yields `'TBA'` when `next_date` is missing, or when it
does not split into exactly three `/`-parts **and** generic parsing fails;
a three-part `next_date` is rendered as its zero-padded first two parts
with no validity check at all. -/
theorem dateFallbacks_amended :
    (∀ (jsDateParse : JsDateParser) (today : Int) (race : Race),
      race.next_date = "" ∨ race.last_date = "" →
      RaceService.getRaceStatus jsDateParse today race = .upcoming) ∧
    (∀ (jsDateParse : JsDateParser) (today : Int) (race : Race),
      race.next_date ≠ "" → race.last_date ≠ "" →
      RaceService.parseDate jsDateParse race.next_date = none →
      RaceService.getRaceStatus jsDateParse today race = .past) ∧
    (∀ (jsDateParse : JsDateParser) (today : Int) (race : Race),
      RaceService.getRaceStatus jsDateParse today race = .live ∨
      RaceService.getRaceStatus jsDateParse today race = .upcoming ∨
      RaceService.getRaceStatus jsDateParse today race = .past) ∧
    (∀ (jsDateParse : JsDateParser) (race : Race),
      race.next_date = "" →
      RaceService.formatRaceDate jsDateParse race = "TBA") ∧
    (∀ (jsDateParse : JsDateParser) (race : Race) (p0 p1 p2 : String),
      race.next_date ≠ "" →
      jsSplitChar race.next_date '/' = [p0, p1, p2] →
      RaceService.formatRaceDate jsDateParse race =
        RaceService.padStart2 p0 ++ "/" ++ RaceService.padStart2 p1) ∧
    (∀ (jsDateParse : JsDateParser) (race : Race),
      race.next_date ≠ "" →
      (∀ p0 p1 p2, jsSplitChar race.next_date '/' ≠ [p0, p1, p2]) →
      jsDateParse race.next_date = none →
      RaceService.formatRaceDate jsDateParse race = "TBA") := by
  refine ⟨?_, ?_, ?_, ?_, ?_, ?_⟩
  · intro jsDateParse today race h
    rcases h with h | h <;> simp [RaceService.getRaceStatus, h]
  · intro jsDateParse today race hne hle hparse
    simp [RaceService.getRaceStatus, hne, hle, hparse,
      RaceService.dateLE, RaceService.dateLT]
  · intro jsDateParse today race
    cases hs : RaceService.getRaceStatus jsDateParse today race with
    | live => exact Or.inl rfl
    | upcoming => exact Or.inr (Or.inl rfl)
    | past => exact Or.inr (Or.inr rfl)
  · intro jsDateParse race h
    simp [RaceService.formatRaceDate, h]
  · intro jsDateParse race p0 p1 p2 hne hsplit
    simp [RaceService.formatRaceDate, hne, hsplit]
  · intro jsDateParse race hne hnot3 hparse
    unfold RaceService.formatRaceDate
    rw [if_neg hne]
    rcases hl : jsSplitChar race.next_date '/' with
      _ | ⟨p0, _ | ⟨p1, _ | ⟨p2, _ | ⟨p3, t⟩⟩⟩⟩
    · simp [hparse]
    · simp [hparse]
    · simp [hparse]
    · exact absurd hl (hnot3 p0 p1 p2)
    · simp [hparse]

/-- Witness for C3 (amended): the branches evaluated on concrete races —
a missing date gives `upcoming` and `'TBA'`, the garbled three-part date
gives `past` and the padded parts, and a one-part unparsable date gives
`'TBA'`. -/
theorem dateFallbacks_amended_witness :
    RaceService.getRaceStatus (fun _ => none) 0
      { race_id := 1, name := "r", next_date := "", last_date := "06/16/2025" } =
      .upcoming ∧
    RaceService.getRaceStatus (fun _ => none) 0 garbledDateRace = .past ∧
    RaceService.formatRaceDate (fun _ => none)
      { race_id := 1, name := "r", next_date := "", last_date := "" } = "TBA" ∧
    RaceService.formatRaceDate (fun _ => none) garbledDateRace =
      RaceService.padStart2 "a" ++ "/" ++ RaceService.padStart2 "b" ∧
    RaceService.formatRaceDate (fun _ => none)
      { race_id := 2, name := "r", next_date := "soon", last_date := "soon" } =
      "TBA" := by
  refine ⟨dateFallbacks_amended.1 _ 0 _ (Or.inl rfl),
          dateFallbacks_amended.2.1 _ 0 _ (by decide) (by decide) (by decide),
          dateFallbacks_amended.2.2.2.1 _ _ rfl,
          dateFallbacks_amended.2.2.2.2.1 _ _ "a" "b" "c" (by decide) (by decide),
          dateFallbacks_amended.2.2.2.2.2 _ _ (by decide) ?_ rfl⟩
  intro p0 p1 p2 h
  rw [show jsSplitChar "soon" '/' = ["soon"] from rfl] at h
  simp at h

/-! ## Claim C6 — status boundaries for parsable dates -/

/-- Claim C6: for every race whose `next_date` and `last_date` both parse (to day
counts `nd` and `ld`), `getRaceStatus` returns `live` exactly when
`nd ≤ today ≤ ld` (inclusive), `upcoming` exactly when `today < nd`, and
`past` otherwise (`nd ≤ today` and `ld < today`); moreover a `next_date`
that splits into three `/`-parts is parsed by the `MM/DD/YYYY` special
case — the result is independent of the generic parser.  (The host parser
maps the empty string to an Invalid Date, hence `hEmptyParse`.) -/
theorem getRaceStatus_parsable_boundaries
    (jsDateParse : JsDateParser) (today : Int) (race : Race) (nd ld : Int)
    (hEmptyParse : jsDateParse "" = none)
    (hn : RaceService.parseDate jsDateParse race.next_date = some nd)
    (hl : RaceService.parseDate jsDateParse race.last_date = some ld) :
    (RaceService.getRaceStatus jsDateParse today race = .live ↔
      nd ≤ today ∧ today ≤ ld) ∧
    (RaceService.getRaceStatus jsDateParse today race = .upcoming ↔
      today < nd) ∧
    (RaceService.getRaceStatus jsDateParse today race = .past ↔
      nd ≤ today ∧ ld < today) ∧
    (∀ p0 p1 p2, jsSplitChar race.next_date '/' = [p0, p1, p2] →
      ∀ jsP2 : JsDateParser,
        RaceService.parseDate jsP2 race.next_date =
          RaceService.parseDate jsDateParse race.next_date) := by
  have hempty : RaceService.parseDate jsDateParse "" = none := by
    simp [RaceService.parseDate, show jsSplitChar "" '/' = [""] from rfl,
      hEmptyParse]
  have hne : race.next_date ≠ "" := by
    intro h
    rw [h, hempty] at hn
    cases hn
  have hle2 : race.last_date ≠ "" := by
    intro h
    rw [h, hempty] at hl
    cases hl
  have hstat : RaceService.getRaceStatus jsDateParse today race =
      (if nd ≤ today ∧ today ≤ ld then .live
       else if today < nd then .upcoming else .past) := by
    simp [RaceService.getRaceStatus, hne, hle2, hn, hl,
      RaceService.dateLE, RaceService.dateLT]
  refine ⟨?_, ?_, ?_, ?_⟩
  · rw [hstat]; split_ifs with h1 h2 <;> simp <;> omega
  · rw [hstat]; split_ifs with h1 h2 <;> simp <;> omega
  · rw [hstat]; split_ifs with h1 h2 <;> simp <;> omega
  · intro p0 p1 p2 hsplit jsP2
    simp only [RaceService.parseDate, hsplit]

/-- Witness for C6: the boundary facts evaluated on the concrete June race
(`06/15/2025 .. 06/16/2025`, day counts 20254 and 20255) with `today` on
the first race day. -/
theorem getRaceStatus_parsable_boundaries_witness :
    RaceService.parseDate (fun _ => none) "06/15/2025" = some 20254 ∧
    RaceService.getRaceStatus (fun _ => none) 20254 juneRace = .live := by
  have h := getRaceStatus_parsable_boundaries (fun _ => none) 20254 juneRace
    20254 20255 rfl (by decide) (by decide)
  exact ⟨by decide, h.1.mpr (by omega)⟩

/-! ## Claim C1 — `registerForRace` performs no local validation -/

/-- Updating key `k` in place leaves lookups of any other key unchanged. -/
theorem find_map_assign (k k' : String) (v : Json) (hkk : k' ≠ k) :
    ∀ fields : List (String × Json),
      (fields.map (fun f => if f.1 = k then (k, v) else f)).find?
          (fun f => f.1 == k') =
        fields.find? (fun f => f.1 == k') := by
  intro fields
  induction fields with
  | nil => rfl
  | cons f fs ih =>
    by_cases hf : f.1 = k
    · have h1 : ((k, v).1 == k') = false := by simp [Ne.symm hkk]
      have h2 : (f.1 == k') = false := by simp [hf, Ne.symm hkk]
      simp only [List.map_cons, if_pos hf, List.find?_cons, h1, h2, ih,
        Bool.false_eq_true, if_false]
    · by_cases hf' : f.1 = k'
      · have h2 : (f.1 == k') = true := by simp [hf']
        simp only [List.map_cons, if_neg hf, List.find?_cons, h2, if_true]
      · have h2 : (f.1 == k') = false := by simp [hf']
        simp only [List.map_cons, if_neg hf, List.find?_cons, h2, ih,
          Bool.false_eq_true, if_false]

/-- JavaScript assignment of key `k` leaves lookups of `k' ≠ k`
unchanged. -/
theorem find_jsAssign (k k' : String) (v : Json) (hkk : k' ≠ k)
    (fields : List (String × Json)) :
    (jsAssign fields k v).find? (fun f => f.1 == k') =
      fields.find? (fun f => f.1 == k') := by
  unfold jsAssign
  split
  · exact find_map_assign k k' v hkk fields
  · rw [List.find?_append]
    have h1 : (k == k') = false := by simp [Ne.symm hkk]
    cases hfind : fields.find? (fun f => f.1 == k') <;>
      simp [hfind, List.find?, h1]

/-- `assignIfStr` at key `k` leaves lookups of `k' ≠ k` unchanged. -/
theorem find_assignIfStr (k k' : String) (v : Option String) (hkk : k' ≠ k)
    (fields : List (String × Json)) :
    (assignIfStr fields k v).find? (fun f => f.1 == k') =
      fields.find? (fun f => f.1 == k') := by
  unfold assignIfStr
  cases v with
  | none => rfl
  | some s =>
    dsimp only
    split
    · exact find_jsAssign k k' (.str s) hkk fields
    · rfl

/-- `assignIfInt` at key `k` leaves lookups of `k' ≠ k` unchanged. -/
theorem find_assignIfInt (k k' : String) (v : Option Int) (hkk : k' ≠ k)
    (fields : List (String × Json)) :
    (assignIfInt fields k v).find? (fun f => f.1 == k') =
      fields.find? (fun f => f.1 == k') := by
  unfold assignIfInt
  cases v with
  | none => rfl
  | some n =>
    dsimp only
    split
    · exact find_jsAssign k k' (.num n) hkk fields
    · rfl

/-- Claim C1 counterexample: `registerForRace` with an **empty email** issues
exactly one Transport post (not zero), forwards the empty email verbatim in
the payload, and — when the transport succeeds — succeeds, with no local
validation error, contradicting "fails locally with a validation error and
issues zero Transport/network calls". -/
theorem registerForRace_posts_empty_email_cex :
    (RegistrationService.registerForRace (fun _ _ => .ok (.obj [])) 7
        emptyEmailRequest).2.length = 1 ∧
    (RegistrationService.registerForRace (fun _ _ => .ok (.obj [])) 7
        emptyEmailRequest).1 = .ok (.obj []) ∧
    Json.getF (.obj (RegistrationService.formatRegistrationData
        emptyEmailRequest)) "email" = .str "" :=
  ⟨rfl, rfl, rfl⟩

/-- Claim C1 amended: `registerForRace` performs **no** validation of the
identity fields: for every request (identity fields empty or not, as long
as `custom_questions` does not shadow them) it issues exactly one Transport
post of the formatted payload to `/race/{raceId}/registration/add`, the
payload carries `first_name`, `last_name` and `email` verbatim, and the
transport's outcome is returned unchanged. -/
theorem registerForRace_no_validation
    (post : String → List (String × Json) → Except String Json)
    (raceId : Int) (data : RegistrationRequest)
    (hcq : data.custom_questions = none) :
    (RegistrationService.registerForRace post raceId data).2.length = 1 ∧
    (RegistrationService.registerForRace post raceId data).2 =
      [{ endpoint := "/race/" ++ toString raceId ++ "/registration/add",
         payload := RegistrationService.formatRegistrationData data }] ∧
    (RegistrationService.registerForRace post raceId data).1 =
      post ("/race/" ++ toString raceId ++ "/registration/add")
        (RegistrationService.formatRegistrationData data) ∧
    Json.getF (.obj (RegistrationService.formatRegistrationData data))
        "first_name" = .str data.first_name ∧
    Json.getF (.obj (RegistrationService.formatRegistrationData data))
        "last_name" = .str data.last_name ∧
    Json.getF (.obj (RegistrationService.formatRegistrationData data))
        "email" = .str data.email := by
  refine ⟨rfl, rfl, rfl, ?_, ?_, ?_⟩ <;>
  · simp only [RegistrationService.formatRegistrationData, hcq, Json.getF]
    cases hop : data.offline_payment with
    | none =>
      cases had : data.address with
      | none =>
        simp [find_assignIfStr, find_assignIfInt, find_jsAssign, List.find?]
      | some a =>
        simp [find_assignIfStr, find_assignIfInt, find_jsAssign, List.find?]
    | some b =>
      cases b <;> cases had : data.address with
      | none =>
        simp [find_assignIfStr, find_assignIfInt, find_jsAssign, List.find?]
      | some a =>
        simp [find_assignIfStr, find_assignIfInt, find_jsAssign, List.find?]

/-- Witness for C1 (amended): evaluated on the concrete request whose email
is empty — one post issued, empty email forwarded verbatim. -/
theorem registerForRace_no_validation_witness :
    (RegistrationService.registerForRace (fun _ _ => .ok (.obj [])) 7
        emptyEmailRequest).2.length = 1 ∧
    Json.getF (.obj (RegistrationService.formatRegistrationData
        emptyEmailRequest)) "email" = .str emptyEmailRequest.email := by
  have h := registerForRace_no_validation (fun _ _ => .ok (.obj [])) 7
    emptyEmailRequest rfl
  exact ⟨h.1, h.2.2.2.2.2⟩

/-! ## Claim C7 — registrations sorted by race date, missing dates as epoch zero -/

/-- Claim C7: for every fetched registration list, `getUpcomingRegistrations`
returns a permutation of it sorted ascending by the race-date key and
`getPastRegistrations` one sorted descending; an entry with a missing
`race_date` has key `0` (epoch zero) and therefore — when the host clock
times of all present race dates are non-negative, i.e. dates are on or
after 1970 — sorts as the earliest entry in both orders. -/
theorem userRegistrations_sorted
    (jsTime : String → Int) (resp : Option (List UserRegistration))
    (h0 : ∀ r ∈ resp.getD [], ∀ s, r.race_date = some s → 0 ≤ jsTime s) :
    (UserService.getUpcomingRegistrations jsTime resp).Perm (resp.getD []) ∧
    (UserService.getUpcomingRegistrations jsTime resp).Pairwise
      (fun a b => UserService.raceDateKey jsTime a ≤
        UserService.raceDateKey jsTime b) ∧
    (UserService.getPastRegistrations jsTime resp).Perm (resp.getD []) ∧
    (UserService.getPastRegistrations jsTime resp).Pairwise
      (fun a b => UserService.raceDateKey jsTime b ≤
        UserService.raceDateKey jsTime a) ∧
    (∀ r : UserRegistration, r.race_date = none →
      UserService.raceDateKey jsTime r = 0) ∧
    (∀ r ∈ resp.getD [], r.race_date = none →
      ∀ r' ∈ resp.getD [],
        UserService.raceDateKey jsTime r ≤ UserService.raceDateKey jsTime r') := by
  have keyNonneg : ∀ r ∈ resp.getD [], 0 ≤ UserService.raceDateKey jsTime r := by
    intro r hr
    cases hd : r.race_date with
    | none => simp [UserService.raceDateKey, hd]
    | some s =>
      by_cases hs : s = ""
      · simp [UserService.raceDateKey, hd, hs]
      · simpa [UserService.raceDateKey, hd, hs] using h0 r hr s hd
  refine ⟨?_, ?_, ?_, ?_, ?_, ?_⟩
  · exact List.mergeSort_perm _ _
  · refine List.Pairwise.imp ?_
      (List.sorted_mergeSort
        (fun a b c hab hbc => by
          simp only [decide_eq_true_eq] at *
          omega)
        (fun a b => by
          simpa using Int.le_total (UserService.raceDateKey jsTime a)
            (UserService.raceDateKey jsTime b))
        (resp.getD []))
    intro a b h
    simpa using h
  · exact List.mergeSort_perm _ _
  · refine List.Pairwise.imp ?_
      (List.sorted_mergeSort
        (fun a b c hab hbc => by
          simp only [decide_eq_true_eq] at *
          omega)
        (fun a b => by
          simpa using Int.le_total (UserService.raceDateKey jsTime b)
            (UserService.raceDateKey jsTime a))
        (resp.getD []))
    intro a b h
    simpa using h
  · intro r hr
    simp [UserService.raceDateKey, hr]
  · intro r hr hnone r' hr'
    have h1 : UserService.raceDateKey jsTime r = 0 := by
      simp [UserService.raceDateKey, hnone]
    have h2 := keyNonneg r' hr'
    omega

/-- Witness for C7: evaluated on a concrete pair of registrations (one
dated, one with a missing date) under a host clock mapping every date to
100 ms. -/
theorem userRegistrations_sorted_witness :
    (UserService.getUpcomingRegistrations (fun _ => 100)
        (some [datedRegistration, undatedRegistration])).Pairwise
      (fun a b => UserService.raceDateKey (fun _ => 100) a ≤
        UserService.raceDateKey (fun _ => 100) b) ∧
    UserService.raceDateKey (fun _ => 100) undatedRegistration = 0 := by
  have h := userRegistrations_sorted (fun _ => 100)
    (some [datedRegistration, undatedRegistration])
    (fun r _ s _ => by show (0 : Int) ≤ 100; omega)
  exact ⟨h.2.1, h.2.2.2.2.1 undatedRegistration rfl⟩
